import Mathlib

/-!
Verification development for the WhatsApp event-booking bot (`main.py`).

The bot is a webhook-driven conversational form: it walks each sender through
four questions (event date, event type, location, guest count), validates the
date and the guest count, and on completion notifies both the customer and a
fixed admin recipient, deleting the sender's in-memory conversation state.

This file shallowly embeds the relevant Python code:
* the two validators `is_valid_date` (built on
  `datetime.strptime(s, "%d/%m/%Y")`) and `is_valid_number` (built on
  `int(s) > 0`);
* the conversation store (a dict from sender to a mutable state dict),
  modelled as a function `String → Option ConvState`;
* the conversation handlers (`start_conversation`, `cancel_conversation`,
  `handle_text_message`, `handle_date_input`, `handle_event_type_selection`,
  `handle_location_input`, `handle_guests_input`), modelled as pure functions
  from a store to a store plus a list of outbound sends;
* the webhook endpoint `handle_webhook`, modelled over a JSON value type with
  Python's exception behaviour (`KeyError`/`IndexError` are caught, other
  errors escape).

Modelling conventions: digits are ASCII `0`-`9` (Python's `\d` and `int()`
additionally accept non-ASCII decimal digits; no claim depends on those);
message bodies are abstracted to constructors carrying exactly the fields the
source interpolates into them.
-/

namespace GoldaBot

/-! ### Character classes and digit-string values -/

/-- Base-10 value of a digit string, as `int()` computes it. -/
def digitsVal (l : List Char) : Nat :=
  l.foldl (fun a c => a * 10 + (c.toNat - 48)) 0

/-- All characters are ASCII decimal digits. -/
def allDigits (l : List Char) : Bool :=
  l.all (fun c => c.isDigit)

/-- Whitespace stripped by Python's `int()` and `str.strip()`
(modelled on the ASCII whitespace characters). -/
def isPyWs (c : Char) : Bool :=
  c = ' ' || c = '\t' || c = '\n' || c = '\r' || c = '\x0b' || c = '\x0c'

/-- Strip leading and trailing whitespace, as `str.strip()` does. -/
def pyStripWs (l : List Char) : List Char :=
  ((l.dropWhile isPyWs).reverse.dropWhile isPyWs).reverse

/-! ### `is_valid_date` (main.py lines 244-250)

`datetime.strptime(date_str, "%d/%m/%Y")` matches the whole string against
`%d` = a one- or two-digit number in 1..31 (`3[01]|[12]\d|0[1-9]|[1-9]`),
`%m` = a one- or two-digit number in 1..12 (`1[0-2]|0[1-9]|[1-9]`),
`%Y` = exactly four digits (`\d\d\d\d`), separated by literal `/`.
The `datetime` constructor then rejects a year below `MINYEAR = 1` and a day
exceeding the length of the month. Because the day/month/year fields contain
no `/`, matching the format is equivalent to splitting the string at every
`/` and checking the three parts. -/

/-- Split a character list at every `'/'` (like `re` matching the
`%d/%m/%Y` pattern: the parts between the literal slashes). -/
def splitSlash : List Char → List (List Char)
  | [] => [[]]
  | c :: cs =>
    if c = '/' then [] :: splitSlash cs
    else
      match splitSlash cs with
      | [] => [[c]]
      | p :: ps => (c :: p) :: ps

/-- Inverse of `splitSlash`: re-join parts with `'/'`. -/
def unsplit : List (List Char) → List Char
  | [] => []
  | [p] => p
  | p :: ps => p ++ '/' :: unsplit ps

/-- Gregorian leap-year rule, as in Python's `datetime`. -/
def isLeapYear (y : Nat) : Bool :=
  y % 4 == 0 && (y % 100 != 0 || y % 400 == 0)

/-- Days in a month, as in Python's `datetime`. -/
def daysInMonth (y m : Nat) : Nat :=
  if m = 2 then (if isLeapYear y then 29 else 28)
  else if m = 4 ∨ m = 6 ∨ m = 9 ∨ m = 11 then 30
  else 31

/-- A day or month field of `strptime`'s format: one or two digits whose
value lies in `1..hi` (zero-padding optional, `"00"` excluded). -/
def dateFieldOk (hi : Nat) (l : List Char) : Bool :=
  allDigits l && decide (1 ≤ l.length ∧ l.length ≤ 2) &&
    decide (1 ≤ digitsVal l ∧ digitsVal l ≤ hi)

/-- `is_valid_date` from main.py: `strptime(s, "%d/%m/%Y")` succeeds. -/
def is_valid_date (s : String) : Bool :=
  match splitSlash s.data with
  | [d, m, y] =>
    dateFieldOk 31 d && dateFieldOk 12 m &&
      (allDigits y && decide (y.length = 4)) &&
      decide (1 ≤ digitsVal y) &&
      decide (digitsVal d ≤ daysInMonth (digitsVal y) (digitsVal m))
  | _ => false

/-! ### `is_valid_number` (main.py lines 253-258)

`int(num_str)` strips surrounding whitespace, then accepts an optional sign
followed by a digit run in which single underscores may separate digits. -/

/-- Continuation of a Python integer-literal digit run: digits, with a
single `'_'` allowed between two digits. -/
def pyDigitTail : List Char → Bool
  | [] => true
  | c :: rest =>
    if c = '_' then
      match rest with
      | [] => false
      | d :: rest2 => d.isDigit && pyDigitTail rest2
    else c.isDigit && pyDigitTail rest

/-- A non-empty digit run as accepted by `int()` after the optional sign. -/
def pyDigitRun (l : List Char) : Bool :=
  match l with
  | [] => false
  | c :: rest => c.isDigit && pyDigitTail rest

/-- Value of a digit run (underscores are separators and carry no value). -/
def runVal (l : List Char) : Int :=
  (digitsVal (l.filter (fun c => !(c == '_'))) : Int)

/-- The stripped input of `int()`: an optional sign followed by a digit
run. -/
def pyIntCore : List Char → Option Int
  | [] => none
  | c :: r =>
    if c = '+' then (if pyDigitRun r then some (runVal r) else none)
    else if c = '-' then (if pyDigitRun r then some (-(runVal r)) else none)
    else if pyDigitRun (c :: r) then some (runVal (c :: r))
    else none

/-- Python's `int(s)`: `some n` on success, `none` when `int` raises
`ValueError`. -/
def pyIntParse (s : String) : Option Int :=
  pyIntCore (pyStripWs s.data)

/-- `is_valid_number` from main.py: `int(num_str) > 0`, `False` on
`ValueError`. -/
def is_valid_number (s : String) : Bool :=
  match pyIntParse s with
  | some n => decide (0 < n)
  | none => false

/-! ### Conversation state and store (main.py lines 27-28)

`conversations` is an in-memory dict keyed by the sender identifier; each
value is a dict that `start_conversation` creates as `{"step": 1}` and that
the handlers extend with `date`, `event_type`, `location`, `guests`. -/

/-- One sender's conversation state dict. Fields are `Option` because the
Python dict acquires the keys progressively. -/
structure ConvState where
  step : Nat
  date : Option String
  event_type : Option String
  location : Option String
  guests : Option String
  deriving DecidableEq

/-- The `conversations` dict: a partial map from sender to state. -/
def Conversations : Type := String → Option ConvState

/-- `conversations[sender] = cs` (dict insert/overwrite). -/
def conv_set (sender : String) (cs : ConvState) (st : Conversations) : Conversations :=
  fun x => if x = sender then some cs else st x

/-- `del conversations[sender]` (dict delete). -/
def conv_del (sender : String) (st : Conversations) : Conversations :=
  fun x => if x = sender then none else st x

/-! ### Outbound messages

Message bodies are fixed Hebrew scripts in the source; we abstract each send
to a constructor carrying exactly the state fields the source interpolates.
The welcome sequence (`send_welcome_message`: best-effort logo image plus the
start button) is abstracted to a single marker. -/

/-- Recipient of an outbound send: the customer's number, or the configured
`ADMIN_PHONE`. -/
inductive Rcpt where
  | phone (s : String)
  | admin
  deriving DecidableEq

/-- Outbound message bodies, one constructor per distinct script of the
source, carrying the interpolated state fields. -/
inductive Msg where
  /-- `start_conversation`'s date request. -/
  | datePrompt
  /-- `handle_date_input`'s invalid-date correction. -/
  | dateError
  /-- `send_event_type_list`'s interactive list of ten categories. -/
  | eventTypeList
  /-- `handle_event_type_selection`'s location request. -/
  | locationPrompt
  /-- `handle_location_input`'s guest-count request. -/
  | guestPrompt
  /-- `handle_guests_input`'s invalid-number correction. -/
  | guestError
  /-- `cancel_conversation`'s "conversation cancelled" text. -/
  | cancelled
  /-- `send_welcome_message`: logo image (best effort) plus start button. -/
  | welcomeSeq
  /-- `send_customer_confirmation`: summary of the four collected fields. -/
  | customerConfirmation (date event_type location guests : Option String)
  /-- `send_admin_notification`: the four fields plus the sender's number. -/
  | adminNotify (date event_type location guests : Option String) (sender : String)
  deriving DecidableEq

/-- A normalized inbound event, as `handle_webhook` dispatches it. -/
inductive InEvent where
  | text (t : String)
  | buttonReply (id : String)
  | listReply (id title : String)
  deriving DecidableEq

/-! ### Conversation handlers (main.py lines 103-238)

Each Python handler mutates `conversations` and performs sends; we model it
as a function from the store to the new store plus the list of sends, in
source order. -/

/-- The cancel keywords of `handle_text_message` (line 126). -/
def cancelKeywords : List String := ["ביטול", "בטל", "התחיל מחדש", "מחדש", "חדש"]

/-- Python's `text.lower()`. Lean's `Char.toLower` lowers exactly ASCII
`A`-`Z`; Python lowers further cased letters, but none of those can make a
string equal to the uncased Hebrew keywords, so the comparison below is
unaffected. -/
def pyLower (s : String) : String :=
  String.mk (s.data.map Char.toLower)

/-- `start_conversation` (lines 108-118): fresh `{"step": 1}` state and the
date prompt. -/
def start_conversation (sender : String) (st : Conversations) :
    Conversations × List (Rcpt × Msg) :=
  (conv_set sender { step := 1, date := none, event_type := none,
                     location := none, guests := none } st,
   [(Rcpt.phone sender, Msg.datePrompt)])

/-- `cancel_conversation` (lines 155-165): delete the state if present, then
send the cancellation text and the welcome sequence. -/
def cancel_conversation (sender : String) (st : Conversations) :
    Conversations × List (Rcpt × Msg) :=
  ((if (st sender).isSome then conv_del sender st else st),
   [(Rcpt.phone sender, Msg.cancelled), (Rcpt.phone sender, Msg.welcomeSeq)])

/-- `handle_date_input` (lines 168-183). -/
def handle_date_input (sender text : String) (state : ConvState)
    (st : Conversations) : Conversations × List (Rcpt × Msg) :=
  if is_valid_date text then
    (conv_set sender { state with date := some text, step := 2 } st,
     [(Rcpt.phone sender, Msg.eventTypeList)])
  else
    (st, [(Rcpt.phone sender, Msg.dateError)])

/-- `handle_event_type_selection` (lines 186-202): silently dropped when the
sender has no state or is not at step 2. -/
def handle_event_type_selection (sender selected_title : String)
    (st : Conversations) : Conversations × List (Rcpt × Msg) :=
  match st sender with
  | none => (st, [])
  | some state =>
    if state.step = 2 then
      (conv_set sender { state with event_type := some selected_title, step := 3 } st,
       [(Rcpt.phone sender, Msg.locationPrompt)])
    else (st, [])

/-- `handle_location_input` (lines 205-214): stores the raw text verbatim. -/
def handle_location_input (sender text : String) (state : ConvState)
    (st : Conversations) : Conversations × List (Rcpt × Msg) :=
  (conv_set sender { state with location := some text, step := 4 } st,
   [(Rcpt.phone sender, Msg.guestPrompt)])

/-- `handle_guests_input` (lines 217-238): on a valid count, store it, send
the customer confirmation then the admin notification (both from the same
state dict), and delete the sender's entry. -/
def handle_guests_input (sender text : String) (state : ConvState)
    (st : Conversations) : Conversations × List (Rcpt × Msg) :=
  if is_valid_number text then
    let state2 := { state with guests := some text }
    (conv_del sender st,
     [(Rcpt.phone sender,
       Msg.customerConfirmation state2.date state2.event_type state2.location state2.guests),
      (Rcpt.admin,
       Msg.adminNotify state2.date state2.event_type state2.location state2.guests sender)])
  else
    (st, [(Rcpt.phone sender, Msg.guestError)])

/-- `handle_text_message` (lines 121-152): cancel pre-check, welcome for
unknown senders, then dispatch on the step. -/
def handle_text_message (sender text : String) (st : Conversations) :
    Conversations × List (Rcpt × Msg) :=
  if cancelKeywords.contains (pyLower text) then
    cancel_conversation sender st
  else
    match st sender with
    | none => (st, [(Rcpt.phone sender, Msg.welcomeSeq)])
    | some state =>
      if state.step = 1 then handle_date_input sender text state st
      else if state.step = 2 then handle_event_type_selection sender text st
      else if state.step = 3 then handle_location_input sender text state st
      else if state.step = 4 then handle_guests_input sender text state st
      else (st, [])

/-- The webhook's dispatch of a normalized event (lines 63-85): text goes to
`handle_text_message`, a `start` button reply to `start_conversation` (other
button ids are ignored), a list reply's title to
`handle_event_type_selection`. -/
def processEvent (sender : String) (ev : InEvent) (st : Conversations) :
    Conversations × List (Rcpt × Msg) :=
  match ev with
  | InEvent.text t => handle_text_message sender t st
  | InEvent.buttonReply id =>
    if id = "start" then start_conversation sender st else (st, [])
  | InEvent.listReply _ title => handle_event_type_selection sender title st

/-! ### The webhook endpoint (main.py lines 46-91)

`handle_webhook` parses the provider's JSON envelope inside a
`try: ... except (KeyError, IndexError):` block and returns
`{"status": "ok"}` both on success and on a caught error; any other
exception (for example a `TypeError` from subscripting a non-container)
escapes the endpoint and produces a non-success HTTP response. -/

/-- JSON values, as `await request.json()` yields them (numbers collapsed
to `Int`; no claim depends on floats). -/
inductive Json where
  | null
  | bool (b : Bool)
  | num (n : Int)
  | str (s : String)
  | arr (xs : List Json)
  | obj (kvs : List (String × Json))

/-- The Python exceptions the webhook body can raise. `keyError` and
`indexError` are the ones its `except` clause catches. -/
inductive PyErr where
  | keyError
  | indexError
  | typeError
  | attributeError
  deriving DecidableEq

/-- `v[k]` for a string key: dict lookup (`KeyError` when absent), and
`TypeError` on every non-dict (Python: strings, lists, numbers, booleans
and `None` all reject string subscripts with `TypeError`). -/
def getItem (v : Json) (k : String) : Except PyErr Json :=
  match v with
  | Json.obj kvs =>
    match kvs.find? (fun p => p.1 == k) with
    | some p => Except.ok p.2
    | none => Except.error PyErr.keyError
  | _ => Except.error PyErr.typeError

/-- `v[i]` for a numeric index: list indexing (`IndexError` out of range),
string indexing (yields a one-character string), `KeyError` on a dict
(Python looks the integer up as a key), `TypeError` otherwise. -/
def getIdx (v : Json) (i : Nat) : Except PyErr Json :=
  match v with
  | Json.arr xs =>
    match xs.get? i with
    | some x => Except.ok x
    | none => Except.error PyErr.indexError
  | Json.str s =>
    match s.data.get? i with
    | some c => Except.ok (Json.str (String.mk [c]))
    | none => Except.error PyErr.indexError
  | Json.obj _ => Except.error PyErr.keyError
  | _ => Except.error PyErr.typeError

/-- `j == "lit"` in Python: only a string can equal a string. -/
def jsonIsStr (j : Json) (s : String) : Bool :=
  match j with
  | Json.str t => t == s
  | _ => false

/-- Contiguous-substring test (Python's `needle in haystack` on strings). -/
def strContains : List Char → List Char → Bool
  | needle, [] => needle.isEmpty
  | needle, c :: t => needle.isPrefixOf (c :: t) || strContains needle t

/-- `k in v` in Python: key test on dicts, substring test on strings,
membership test on lists, `TypeError` on non-iterables. -/
def jsonHasKey (v : Json) (k : String) : Except PyErr Bool :=
  match v with
  | Json.obj kvs => Except.ok (kvs.any (fun p => p.1 == k))
  | Json.str s => Except.ok (strContains k.data s.data)
  | Json.arr xs => Except.ok (xs.any (fun j => jsonIsStr j k))
  | _ => Except.error PyErr.typeError

/-- `v.get(k)`: total on dicts, `AttributeError` on anything else. -/
def dictGet (v : Json) (k : String) : Except PyErr (Option Json) :=
  match v with
  | Json.obj kvs =>
    Except.ok (match kvs.find? (fun p => p.1 == k) with
               | some p => some p.2
               | none => none)
  | _ => Except.error PyErr.attributeError

/-- Sender and title values are used as strings downstream; the model
requires them to be JSON strings. (Python would let a non-string value
flow through unchanged; that corner affects no claim.) -/
def asKeyStr (j : Json) : Except PyErr String :=
  match j with
  | Json.str s => Except.ok s
  | _ => Except.error PyErr.typeError

/-- `body.strip()` requires a string: any other value raises
`AttributeError`. -/
def asBodyStr (j : Json) : Except PyErr String :=
  match j with
  | Json.str s => Except.ok s
  | _ => Except.error PyErr.attributeError

/-- The `try:` body of `handle_webhook` (lines 52-85): extract the envelope
fields in source order and dispatch to the matching handler. Returns the
new store and sends, or the first exception raised. -/
def webhookBody (data : Json) (st : Conversations) :
    Except PyErr (Conversations × List (Rcpt × Msg)) := do
  let e ← getItem data "entry"
  let e0 ← getIdx e 0
  let ch ← getItem e0 "changes"
  let ch0 ← getIdx ch 0
  let value ← getItem ch0 "value"
  let hasMsgs ← jsonHasKey value "messages"
  if hasMsgs then
    let msgs ← getItem value "messages"
    let message ← getIdx msgs 0
    let senderJ ← getItem message "from"
    let sender ← asKeyStr senderJ
    let mtype ← dictGet message "type"
    if (match mtype with | some j => jsonIsStr j "interactive" | none => false) then
      let interactive ← getItem message "interactive"
      let itype ← getItem interactive "type"
      if jsonIsStr itype "button_reply" then
        let br ← getItem interactive "button_reply"
        let bid ← getItem br "id"
        if jsonIsStr bid "start" then
          return start_conversation sender st
        else
          return (st, [])
      else if jsonIsStr itype "list_reply" then
        let lr ← getItem interactive "list_reply"
        let _sid ← getItem lr "id"
        let titleJ ← getItem lr "title"
        let title ← asKeyStr titleJ
        return handle_event_type_selection sender title st
      else
        return (st, [])
    else if (match mtype with | some j => jsonIsStr j "text" | none => false) then
      let t ← getItem message "text"
      let bodyJ ← getItem t "body"
      let body ← asBodyStr bodyJ
      return handle_text_message sender (String.mk (pyStripWs body.data)) st
    else
      return (st, [])
  else
    return (st, [])

/-- The HTTP outcome of the endpoint: the generic `{"status": "ok"}`
acknowledgment, or an uncaught exception surfacing as a server error. -/
inductive Resp where
  | ok
  | serverError (e : PyErr)
  deriving DecidableEq

/-- `handle_webhook`: run the body; catch exactly `KeyError` and
`IndexError` (returning the acknowledgment with nothing changed); let any
other exception escape. -/
def handle_webhook (data : Json) (st : Conversations) :
    Resp × (Conversations × List (Rcpt × Msg)) :=
  match webhookBody data st with
  | Except.ok r => (Resp.ok, r)
  | Except.error e =>
    if e = PyErr.keyError ∨ e = PyErr.indexError then (Resp.ok, (st, []))
    else (Resp.serverError e, (st, []))

/-! ### Spec-side predicates

These definitions follow the spec's wording (as amended where the code
forces it); the theorems below compare them with the embedded code. -/

/-- The date strings accepted per the (amended) spec: day `/` month `/`
year, the day one or two digits with value 1..31, the month one or two
digits with value 1..12, the year exactly four digits, naming a real
calendar date (year at least 1, day within the month's length). -/
def SpecDate (s : String) : Prop :=
  ∃ d m y : List Char,
    s.data = d ++ '/' :: (m ++ '/' :: y) ∧
    (∀ c ∈ d, c.isDigit = true) ∧ 1 ≤ d.length ∧ d.length ≤ 2 ∧
      1 ≤ digitsVal d ∧ digitsVal d ≤ 31 ∧
    (∀ c ∈ m, c.isDigit = true) ∧ 1 ≤ m.length ∧ m.length ≤ 2 ∧
      1 ≤ digitsVal m ∧ digitsVal m ≤ 12 ∧
    (∀ c ∈ y, c.isDigit = true) ∧ y.length = 4 ∧ 1 ≤ digitsVal y ∧
    digitsVal d ≤ daysInMonth (digitsVal y) (digitsVal m)

/-- A field that is present and a non-empty string. -/
def nonEmptyField (o : Option String) : Bool :=
  match o with
  | some s => decide (s ≠ "")
  | none => false

/-- The store invariant exactly as the spec states it: a legal step, and
every field non-empty once the step that collects it has been passed
(date after step 1, event type after step 2, location after step 3; the
guest count is collected by the final step, whose completion deletes the
entry, so no retained entry carries it). -/
def origInv (cs : ConvState) : Bool :=
  decide (cs.step = 1 ∨ cs.step = 2 ∨ cs.step = 3 ∨ cs.step = 4) &&
  (if 2 ≤ cs.step then nonEmptyField cs.date else true) &&
  (if 3 ≤ cs.step then nonEmptyField cs.event_type else true) &&
  (if 4 ≤ cs.step then nonEmptyField cs.location else true)

/-- The store invariant the code actually preserves: a legal step; the
date present and non-empty (it passed validation) once step 1 is passed;
the event type and location present — but possibly the empty string,
since free text and list titles are stored verbatim — once their steps
are passed. -/
def InvState (cs : ConvState) : Prop :=
  (cs.step = 1 ∨ cs.step = 2 ∨ cs.step = 3 ∨ cs.step = 4) ∧
  (2 ≤ cs.step → ∃ d, cs.date = some d ∧ d ≠ "") ∧
  (3 ≤ cs.step → cs.event_type.isSome = true) ∧
  (4 ≤ cs.step → cs.location.isSome = true)

/-- Every entry of the store satisfies the state invariant. -/
def StoreInv (st : Conversations) : Prop :=
  ∀ s cs, st s = some cs → InvState cs


/-! ### Facts about `splitSlash` -/

theorem splitSlash_ne_nil (l : List Char) : splitSlash l ≠ [] := by
  induction l with
  | nil => simp [splitSlash]
  | cons c cs ih =>
    simp only [splitSlash]
    split
    · simp
    · split
      · simp
      · simp

theorem unsplit_splitSlash (l : List Char) : unsplit (splitSlash l) = l := by
  induction l with
  | nil => rfl
  | cons c cs ih =>
    simp only [splitSlash]
    split
    · rename_i hc
      obtain ⟨p, ps, e⟩ := List.exists_cons_of_ne_nil (splitSlash_ne_nil cs)
      rw [e] at ih ⊢
      simpa [unsplit, hc] using ih
    · rename_i hc
      obtain ⟨p, ps, e⟩ := List.exists_cons_of_ne_nil (splitSlash_ne_nil cs)
      rw [e] at ih ⊢
      cases ps with
      | nil => simpa [unsplit] using ih
      | cons q qs => simpa [unsplit] using ih

theorem splitSlash_append (a rest : List Char) (h : '/' ∉ a) :
    splitSlash (a ++ '/' :: rest) = a :: splitSlash rest := by
  induction a with
  | nil => simp [splitSlash]
  | cons c a' ih =>
    have hc : c ≠ '/' := fun e => h (e ▸ List.mem_cons_self c a')
    have ha' : '/' ∉ a' := fun m => h (List.mem_cons_of_mem c m)
    simp only [List.cons_append, splitSlash, if_neg (fun e => hc e),
      List.append_eq]
    rw [ih ha']

theorem splitSlash_no_slash (l : List Char) (h : '/' ∉ l) :
    splitSlash l = [l] := by
  induction l with
  | nil => rfl
  | cons c cs ih =>
    have hc : c ≠ '/' := fun e => h (e ▸ List.mem_cons_self c cs)
    have hcs : '/' ∉ cs := fun m => h (List.mem_cons_of_mem c m)
    simp only [splitSlash, if_neg (fun e => hc e)]
    rw [ih hcs]

theorem no_slash_of_digits {l : List Char} (h : ∀ c ∈ l, c.isDigit = true) :
    '/' ∉ l :=
  fun hm => absurd (h _ hm) (by decide)

/-! ### C1: `is_valid_date` -/

/-- C1, counterexample: the claim asserts that `isValidDate("1/1/2026")` is
false (day and month must be zero-padded to two digits), but the code's
`strptime("%d/%m/%Y")` accepts unpadded one-digit fields, so it is true. -/
theorem is_valid_date_unpadded_accepted : is_valid_date "1/1/2026" = true := by
  decide

/-- C1, amended: `isValidDate(s)` is true iff `s` is day `/` month `/`
year where the day is one or two digits with value in 1..31, the month one
or two digits with value in 1..12, the year exactly four digits, and `s`
denotes a real calendar date (year at least 1, day at most the month's
length); zero-padding is optional, so `31/12/2026` and `1/1/2026` are true
while `31/02/2026` is false. -/
theorem is_valid_date_characterization (s : String) :
    is_valid_date s = true ↔ SpecDate s := by
  constructor
  · intro h
    unfold is_valid_date at h
    split at h
    · rename_i d m y heq
      have hs : s.data = d ++ '/' :: (m ++ '/' :: y) := by
        have hu := unsplit_splitSlash s.data
        rw [heq] at hu
        simpa [unsplit] using hu.symm
      simp only [dateFieldOk, allDigits, Bool.and_eq_true, List.all_eq_true,
        decide_eq_true_eq, and_assoc] at h
      exact ⟨d, m, y, hs, h⟩
    · exact absurd h (by simp)
  · rintro ⟨d, m, y, hs, hd1, hd2, hd3, hd4, hd5, hm1, hm2, hm3, hm4, hm5,
      hy1, hy2, hy3, hday⟩
    have hsplit : splitSlash s.data = [d, m, y] := by
      rw [hs, splitSlash_append d _ (no_slash_of_digits hd1),
        splitSlash_append m _ (no_slash_of_digits hm1),
        splitSlash_no_slash y (no_slash_of_digits hy1)]
    unfold is_valid_date
    rw [hsplit]
    simp only [dateFieldOk, allDigits, Bool.and_eq_true, List.all_eq_true,
      decide_eq_true_eq, and_assoc]
    exact ⟨hd1, hd2, hd3, hd4, hd5, hm1, hm2, hm3, hm4, hm5,
      hy1, hy2, hy3, hday⟩

/-- C1, witness: the amended characterization applied at `31/12/2026`. -/
theorem is_valid_date_characterization_instance : SpecDate "31/12/2026" :=
  (is_valid_date_characterization "31/12/2026").mp (by decide)

/-! ### C2: `is_valid_number` -/

theorem isPyWs_of_digit {c : Char} (h : c.isDigit = true) : isPyWs c = false := by
  cases e : isPyWs c
  · rfl
  · exfalso
    simp only [isPyWs, Bool.or_eq_true, decide_eq_true_eq, or_assoc] at e
    rcases e with e | e | e | e | e | e <;> rw [e] at h <;>
      exact absurd h (by decide)

theorem dropWhile_eq_self_of {p : Char → Bool} {l : List Char}
    (h : ∀ c ∈ l, p c = false) : l.dropWhile p = l := by
  cases l with
  | nil => rfl
  | cons a t =>
    exact List.dropWhile_cons_of_neg (by simp [h a (List.mem_cons_self a t)])

theorem pyStrip_of_digits {l : List Char} (h : ∀ c ∈ l, c.isDigit = true) :
    pyStripWs l = l := by
  have h1 : ∀ c ∈ l, isPyWs c = false := fun c hc => isPyWs_of_digit (h c hc)
  unfold pyStripWs
  rw [dropWhile_eq_self_of h1,
    dropWhile_eq_self_of (fun c hc => h1 c (List.mem_reverse.mp hc)),
    List.reverse_reverse]

theorem pyDigitTail_cons (c : Char) (rest : List Char) (h : ¬(c = '_')) :
    pyDigitTail (c :: rest) = (c.isDigit && pyDigitTail rest) := by
  rw [pyDigitTail.eq_def]
  dsimp only
  rw [if_neg h]

theorem pyDigitTail_of_digits {l : List Char} (h : ∀ c ∈ l, c.isDigit = true) :
    pyDigitTail l = true := by
  induction l with
  | nil => rfl
  | cons c rest ih =>
    have hc : c.isDigit = true := h c (List.mem_cons_self c rest)
    have hne : ¬(c = '_') := fun e => absurd hc (by rw [e]; decide)
    rw [pyDigitTail_cons c rest hne, hc,
      ih (fun x hx => h x (List.mem_cons_of_mem c hx))]
    rfl

theorem pyDigitRun_cons {c : Char} {r : List Char}
    (h : ∀ x ∈ c :: r, x.isDigit = true) : pyDigitRun (c :: r) = true := by
  simp only [pyDigitRun]
  rw [h c (List.mem_cons_self c r),
    pyDigitTail_of_digits (fun x hx => h x (List.mem_cons_of_mem c hx))]
  rfl

theorem filter_underscore_of_digits {l : List Char}
    (h : ∀ c ∈ l, c.isDigit = true) : l.filter (fun c => !(c == '_')) = l := by
  apply List.filter_eq_self.mpr
  intro a ha
  have hne : a ≠ '_' := fun e => absurd (h a ha) (by rw [e]; decide)
  simp [hne]

/-- On a non-empty all-digit string, Python's `int()` returns its base-10
value. -/
theorem pyIntCore_cons (c : Char) (r : List Char) :
    pyIntCore (c :: r) =
      if c = '+' then (if pyDigitRun r then some (runVal r) else none)
      else if c = '-' then (if pyDigitRun r then some (-(runVal r)) else none)
      else if pyDigitRun (c :: r) then some (runVal (c :: r))
      else none := rfl

theorem pyIntParse_digits {s : String} (hne : s.data ≠ [])
    (h : ∀ c ∈ s.data, c.isDigit = true) :
    pyIntParse s = some ((digitsVal s.data : Int)) := by
  unfold pyIntParse
  rw [pyStrip_of_digits h]
  cases e : s.data with
  | nil => exact absurd e hne
  | cons c r =>
    have hmem : ∀ x ∈ c :: r, x.isDigit = true := by rw [e] at h; exact h
    have hc : c.isDigit = true := hmem c (List.mem_cons_self c r)
    have hplus : ¬(c = '+') := fun he => absurd hc (by rw [he]; decide)
    have hminus : ¬(c = '-') := fun he => absurd hc (by rw [he]; decide)
    rw [pyIntCore_cons, if_neg hplus, if_neg hminus,
      if_pos (pyDigitRun_cons hmem)]
    rw [runVal, filter_underscore_of_digits hmem]

/-- C2, counterexample: the claim asserts `isValidGuestCount` accepts only
all-digit strings, but the code's `int()` also accepts a sign: `"+5"` is
accepted yet is not all-digit. -/
theorem is_valid_number_sign_accepted :
    is_valid_number "+5" = true ∧ allDigits "+5".data = false := by decide

/-- C2, amended: on every non-empty all-digit string, `isValidGuestCount`
is true iff the value is at least 1 (`"150"` true, `"0"` false); but the
converse inclusion fails, since `int()` also tolerates a sign, surrounding
whitespace and underscore separators — `"+5"` is accepted — while `"-5"`
and `"abc"` are still rejected. -/
theorem is_valid_number_digits_characterization :
    (∀ s : String, s.data ≠ [] → allDigits s.data = true →
      (is_valid_number s = true ↔ 1 ≤ digitsVal s.data)) ∧
    is_valid_number "+5" = true ∧ is_valid_number "-5" = false ∧
    is_valid_number "abc" = false := by
  refine ⟨?_, by decide, by decide, by decide⟩
  intro s hne hdig
  have h : ∀ c ∈ s.data, c.isDigit = true := by
    simpa [allDigits, List.all_eq_true] using hdig
  unfold is_valid_number
  rw [pyIntParse_digits hne h]
  simp only [decide_eq_true_eq]
  omega

/-- C2, witness: the amended characterization applied at `150`. -/
theorem is_valid_number_digits_instance : is_valid_number "150" = true :=
  (is_valid_number_digits_characterization.1 "150" (by decide) (by decide)).mpr
    (by decide)

/-! ### The cancellation keywords

`handle_text_message` compares `text.lower()` with the keyword list before
dispatching on the step. The keywords are Hebrew (plus one internal space),
hence fixed points of lowercasing, and no valid guest count can lower to
one of them — facts the step-dispatch theorems below rely on. -/

theorem char_toNat_ofNat {n : Nat} (h : n.isValidChar) :
    (Char.ofNat n).toNat = n := by
  rw [Char.ofNat, dif_pos h]
  rfl

/-- `Char.toLower` moves only the range `65..90` (into `97..122`); any
character outside `97..122` is hit only by itself. -/
theorem toLower_eq_of_uncased {c k : Char}
    (hk : ¬(97 ≤ k.toNat ∧ k.toNat ≤ 122)) (h : c.toLower = k) : c = k := by
  simp only [Char.toLower] at h
  split at h
  · exfalso
    rename_i hc
    have hv : (c.toNat + 32).isValidChar := Or.inl (by omega)
    have h2 := congrArg Char.toNat h
    rw [char_toNat_ofNat hv] at h2
    exact hk ⟨by omega, by omega⟩
  · exact h

theorem map_toLower_eq {l m : List Char}
    (hm : ∀ c ∈ m, ¬(97 ≤ c.toNat ∧ c.toNat ≤ 122))
    (h : l.map Char.toLower = m) : l = m := by
  induction l generalizing m with
  | nil => simpa using h
  | cons c t ih =>
    cases m with
    | nil => simp at h
    | cons d md =>
      simp only [List.map_cons, List.cons.injEq] at h
      obtain ⟨h1, h2⟩ := h
      have hd := hm d (List.mem_cons_self d md)
      rw [toLower_eq_of_uncased hd h1,
        ih (fun x hx => hm x (List.mem_cons_of_mem d hx)) h2]

theorem string_data_inj {a b : String} (h : a.data = b.data) : a = b := by
  cases a; cases b; exact congrArg String.mk h

/-- A string that lowercases to one of the keywords is that keyword. -/
theorem eq_keyword_of_pyLower {t k : String}
    (hk : ∀ c ∈ k.data, ¬(97 ≤ c.toNat ∧ c.toNat ≤ 122))
    (h : pyLower t = k) : t = k := by
  apply string_data_inj
  exact map_toLower_eq hk (congrArg String.data h)

/-- No cancellation keyword is a valid guest count, and nothing else can
lowercase to one; hence a text passing `is_valid_number` never triggers
the cancel pre-check. -/
theorem cancel_keyword_not_number {t : String}
    (h : cancelKeywords.contains (pyLower t) = true) :
    is_valid_number t = false := by
  have hmem : pyLower t ∈ cancelKeywords := List.elem_iff.mp h
  simp only [cancelKeywords, List.mem_cons, List.not_mem_nil, or_false] at hmem
  rcases hmem with e | e | e | e | e <;>
    rw [eq_keyword_of_pyLower (by decide) e] <;> decide

/-! ### C6: the cancel pre-check -/

/-- C6: any text whose lowercasing is a cancellation keyword deletes the
sender's entry (a no-op without error when none exists), emits the
cancellation text followed by the welcome sequence, and touches no other
sender — at every step, since the pre-check precedes the step dispatch. -/
theorem cancel_keyword_resets (sender text : String) (st : Conversations)
    (h : cancelKeywords.contains (pyLower text) = true) :
    (handle_text_message sender text st).1 sender = none ∧
    (handle_text_message sender text st).2 =
      [(Rcpt.phone sender, Msg.cancelled), (Rcpt.phone sender, Msg.welcomeSeq)] ∧
    (∀ x, x ≠ sender → (handle_text_message sender text st).1 x = st x) := by
  have hred : handle_text_message sender text st = cancel_conversation sender st := by
    unfold handle_text_message
    rw [if_pos h]
  rw [hred]
  unfold cancel_conversation
  refine ⟨?_, rfl, ?_⟩
  · cases e : st sender with
    | none => simp [e]
    | some cs => simp [e, conv_del]
  · intro x hx
    cases e : st sender with
    | none => simp [e]
    | some cs => simp [e, conv_del, hx]

/-- C6, witness: the cancel theorem applied to a sender with no state. -/
theorem cancel_keyword_resets_instance :
    (handle_text_message "a" "ביטול" (fun _ => none)).1 "a" = none :=
  (cancel_keyword_resets "a" "ביטול" (fun _ => none) (by decide)).1

/-! ### C3: invalid guest count -/

/-- C3, counterexample: the claim quantifies over every text failing
`isValidGuestCount`, but the cancel keyword `"בטל"` also fails it, and
processing it at step 4 deletes the state and emits the cancellation
sequence instead of the number-format error. -/
theorem guests_invalid_cancel_cex :
    is_valid_number "בטל" = false ∧
    (conv_set "a" { step := 4, date := some "31/12/2026",
                    event_type := some "חתונה", location := some "תל אביב",
                    guests := none } (fun _ => none)) "a" =
      some { step := 4, date := some "31/12/2026", event_type := some "חתונה",
             location := some "תל אביב", guests := none } ∧
    (handle_text_message "a" "בטל"
      (conv_set "a" { step := 4, date := some "31/12/2026",
                      event_type := some "חתונה", location := some "תל אביב",
                      guests := none } (fun _ => none))).1 "a" = none ∧
    (handle_text_message "a" "בטל"
      (conv_set "a" { step := 4, date := some "31/12/2026",
                      event_type := some "חתונה", location := some "תל אביב",
                      guests := none } (fun _ => none))).2 ≠
      [(Rcpt.phone "a", Msg.guestError)] := by
  refine ⟨by decide, by decide, by decide, by decide⟩

/-- C3, amended: at step 4, a text that fails `isValidGuestCount` *and is
not a cancellation keyword* leaves the store untouched and produces only
the number-format error prompt (no summary is sent). -/
theorem guests_invalid_input_keeps_state (sender text : String)
    (st : Conversations) (state : ConvState)
    (h1 : st sender = some state) (h2 : state.step = 4)
    (h3 : is_valid_number text = false)
    (h4 : cancelKeywords.contains (pyLower text) = false) :
    handle_text_message sender text st =
      (st, [(Rcpt.phone sender, Msg.guestError)]) := by
  have h4m : pyLower text ∉ cancelKeywords := by simpa using h4
  simp [handle_text_message, handle_guests_input, h1, h2, h3, h4m]

/-- C3, witness: the amended theorem applied to `"abc"` at step 4. -/
theorem guests_invalid_input_keeps_state_instance :
    handle_text_message "a" "abc"
      (conv_set "a" { step := 4, date := some "31/12/2026",
                      event_type := some "חתונה", location := some "תל אביב",
                      guests := none } (fun _ => none)) =
      (conv_set "a" { step := 4, date := some "31/12/2026",
                      event_type := some "חתונה", location := some "תל אביב",
                      guests := none } (fun _ => none),
       [(Rcpt.phone "a", Msg.guestError)]) :=
  guests_invalid_input_keeps_state "a" "abc"
    (conv_set "a" { step := 4, date := some "31/12/2026",
                    event_type := some "חתונה", location := some "תל אביב",
                    guests := none } (fun _ => none))
    { step := 4, date := some "31/12/2026", event_type := some "חתונה",
      location := some "תל אביב", guests := none }
    (by decide) rfl (by decide) (by decide)

/-! ### C4: valid guest count completes the wizard -/

/-- C4: at step 4, a text passing `isValidGuestCount` (which is therefore
no cancellation keyword) emits exactly two messages — the customer
confirmation to the sender and the admin notification to the configured
admin recipient, both carrying the four fields of the same state, the
admin's additionally carrying the sender — and deletes the sender's
entry. -/
theorem guests_valid_completes (sender text : String) (st : Conversations)
    (state : ConvState) (h1 : st sender = some state) (h2 : state.step = 4)
    (h3 : is_valid_number text = true) :
    handle_text_message sender text st =
      (conv_del sender st,
       [(Rcpt.phone sender,
         Msg.customerConfirmation state.date state.event_type state.location
           (some text)),
        (Rcpt.admin,
         Msg.adminNotify state.date state.event_type state.location
           (some text) sender)]) ∧
    (conv_del sender st) sender = none := by
  have h4 : cancelKeywords.contains (pyLower text) = false := by
    cases e : cancelKeywords.contains (pyLower text)
    · rfl
    · have hf := cancel_keyword_not_number e
      rw [hf] at h3
      exact absurd h3 (by decide)
  have h4m : pyLower text ∉ cancelKeywords := by simpa using h4
  constructor
  · simp [handle_text_message, handle_guests_input, h1, h2, h3, h4m]
  · simp [conv_del]

/-- C4, witness: the completion theorem applied to `"150"` at a fully
collected state. -/
theorem guests_valid_completes_instance :
    handle_text_message "a" "150"
      (conv_set "a" { step := 4, date := some "31/12/2026",
                      event_type := some "חתונה", location := some "תל אביב",
                      guests := none } (fun _ => none)) =
      (conv_del "a"
        (conv_set "a" { step := 4, date := some "31/12/2026",
                        event_type := some "חתונה", location := some "תל אביב",
                        guests := none } (fun _ => none)),
       [(Rcpt.phone "a",
         Msg.customerConfirmation (some "31/12/2026") (some "חתונה")
           (some "תל אביב") (some "150")),
        (Rcpt.admin,
         Msg.adminNotify (some "31/12/2026") (some "חתונה") (some "תל אביב")
           (some "150") "a")]) :=
  (guests_valid_completes "a" "150"
    (conv_set "a" { step := 4, date := some "31/12/2026",
                    event_type := some "חתונה", location := some "תל אביב",
                    guests := none } (fun _ => none))
    { step := 4, date := some "31/12/2026", event_type := some "חתונה",
      location := some "תל אביב", guests := none }
    (by decide) rfl (by decide)).1

/-- A non-keyword text from a sender with no stored state only triggers
the welcome sequence and leaves the store unchanged. -/
theorem text_message_no_state (sender text : String) (st : Conversations)
    (hkw : cancelKeywords.contains (pyLower text) = false)
    (h : st sender = none) :
    handle_text_message sender text st =
      (st, [(Rcpt.phone sender, Msg.welcomeSeq)]) := by
  unfold handle_text_message
  rw [if_neg (by simpa using hkw), h]

/-! ### C7: cancellation mid-flow, then a date -/

/-- C7, counterexample: after cancelling at step 3 (`AwaitingLocation`),
the claim says a subsequent `31/12/2026` starts a fresh wizard with that
date stored; in fact the sender has no state after cancellation, so the
date message only re-triggers the welcome sequence and nothing is
stored. -/
theorem cancel_then_date_cex :
    ((handle_text_message "a" "ביטול"
      (conv_set "a" { step := 3, date := some "31/12/2026",
                      event_type := some "חתונה", location := none,
                      guests := none } (fun _ => none))).1) "a" = none ∧
    (handle_text_message "a" "31/12/2026"
      ((handle_text_message "a" "ביטול"
        (conv_set "a" { step := 3, date := some "31/12/2026",
                        event_type := some "חתונה", location := none,
                        guests := none } (fun _ => none))).1)).1 "a" = none ∧
    (handle_text_message "a" "31/12/2026"
      ((handle_text_message "a" "ביטול"
        (conv_set "a" { step := 3, date := some "31/12/2026",
                        event_type := some "חתונה", location := none,
                        guests := none } (fun _ => none))).1)).2 =
      [(Rcpt.phone "a", Msg.welcomeSeq)] := by
  refine ⟨by decide, by decide, by decide⟩

/-- C7, amended: a sender at step 3 who sends the cancellation keyword has
the state deleted and the cancellation text plus welcome sequence sent; a
subsequent `31/12/2026` finds no state, so it is *not* treated as a
location — but neither is it stored as a fresh date: it only re-triggers
the welcome sequence, leaving the store unchanged. -/
theorem cancel_then_date_welcome (sender : String) (st : Conversations)
    (cs : ConvState) (h1 : st sender = some cs) (_h2 : cs.step = 3) :
    (handle_text_message sender "ביטול" st).1 sender = none ∧
    (handle_text_message sender "ביטול" st).2 =
      [(Rcpt.phone sender, Msg.cancelled), (Rcpt.phone sender, Msg.welcomeSeq)] ∧
    handle_text_message sender "31/12/2026"
        (handle_text_message sender "ביטול" st).1 =
      ((handle_text_message sender "ביטול" st).1,
       [(Rcpt.phone sender, Msg.welcomeSeq)]) := by
  have hkw : cancelKeywords.contains (pyLower "ביטול") = true := by decide
  have hred : handle_text_message sender "ביטול" st =
      cancel_conversation sender st := by
    unfold handle_text_message
    rw [if_pos hkw]
  have hnone : (handle_text_message sender "ביטול" st).1 sender = none := by
    rw [hred]
    unfold cancel_conversation
    simp [h1, conv_del]
  refine ⟨hnone, (by rw [hred]; rfl), ?_⟩
  exact text_message_no_state sender "31/12/2026"
    (handle_text_message sender "ביטול" st).1 (by decide) hnone

/-- C7, witness: the amended theorem at a concrete step-3 store. -/
theorem cancel_then_date_welcome_instance :
    (handle_text_message "b" "ביטול"
      (conv_set "b" { step := 3, date := some "01/01/2027",
                      event_type := some "אחר", location := none,
                      guests := none } (fun _ => none))).1 "b" = none :=
  (cancel_then_date_welcome "b"
    (conv_set "b" { step := 3, date := some "01/01/2027",
                    event_type := some "אחר", location := none,
                    guests := none } (fun _ => none))
    { step := 3, date := some "01/01/2027", event_type := some "אחר",
      location := none, guests := none }
    (by decide) rfl).1

/-! ### C9: event-type selections are dropped without matching state -/

/-- C9: a list-reply selection from a sender with no stored state, or
whose state is not at step 2 (`AwaitingEventType`), is silently dropped:
the store is returned unchanged and no message is sent. -/
theorem event_type_selection_dropped (sender id title : String)
    (st : Conversations)
    (h : ∀ cs, st sender = some cs → cs.step ≠ 2) :
    processEvent sender (InEvent.listReply id title) st = (st, []) ∧
    handle_event_type_selection sender title st = (st, []) := by
  have hsel : handle_event_type_selection sender title st = (st, []) := by
    unfold handle_event_type_selection
    cases e : st sender with
    | none => rfl
    | some cs =>
      dsimp only
      rw [if_neg (h cs e)]
  exact ⟨hsel, hsel⟩

/-- C9, witness: a selection from a sender with no state is dropped. -/
theorem event_type_selection_dropped_instance :
    processEvent "a" (InEvent.listReply "wedding" "חתונה")
      (fun _ => none) = ((fun _ => none : Conversations), []) :=
  (event_type_selection_dropped "a" "wedding" "חתונה" (fun _ => none)
    (fun _ hcs => nomatch hcs)).1

/-! ### C10: the start button -/

/-- C10: a button reply with id `start` unconditionally resets the sender
to a fresh step-1 state — discarding any previously collected fields —
emits the date prompt, and touches no other sender's entry. -/
theorem start_button_resets (sender : String) (st : Conversations) :
    processEvent sender (InEvent.buttonReply "start") st =
      start_conversation sender st ∧
    (start_conversation sender st).1 sender =
      some { step := 1, date := none, event_type := none, location := none,
             guests := none } ∧
    (start_conversation sender st).2 = [(Rcpt.phone sender, Msg.datePrompt)] ∧
    (∀ x, x ≠ sender → (start_conversation sender st).1 x = st x) := by
  refine ⟨by simp [processEvent], ?_, rfl, ?_⟩
  · simp [start_conversation, conv_set]
  · intro x hx
    simp [start_conversation, conv_set, hx]

/-- C10, witness: the start button creates the fresh state even over an
in-progress conversation. -/
theorem start_button_resets_instance :
    (start_conversation "a"
      (conv_set "a" { step := 3, date := some "31/12/2026",
                      event_type := some "חתונה", location := none,
                      guests := none } (fun _ => none))).1 "a" =
      some { step := 1, date := none, event_type := none, location := none,
             guests := none } :=
  (start_button_resets "a"
    (conv_set "a" { step := 3, date := some "31/12/2026",
                    event_type := some "חתונה", location := none,
                    guests := none } (fun _ => none))).2.1

/-! ### C5: the store invariant -/

/-- C5, counterexample: the spec's invariant demands every collected field
be non-empty, but `handle_location_input` stores raw text verbatim: from
an invariant-satisfying step-3 state, the empty text advances to step 4
with `location = ""`, breaking the non-emptiness clause. -/
theorem store_invariant_empty_location_cex :
    origInv { step := 3, date := some "31/12/2026",
              event_type := some "חתונה", location := none,
              guests := none } = true ∧
    (processEvent "a" (InEvent.text "")
      (conv_set "a" { step := 3, date := some "31/12/2026",
                      event_type := some "חתונה", location := none,
                      guests := none } (fun _ => none))).1 "a" =
      some { step := 4, date := some "31/12/2026", event_type := some "חתונה",
             location := some "", guests := none } ∧
    origInv { step := 4, date := some "31/12/2026", event_type := some "חתונה",
              location := some "", guests := none } = false := by
  refine ⟨by decide, by decide, by decide⟩

theorem invPreserve_set {sender : String} {ncs : ConvState}
    {st : Conversations} (h : StoreInv st) (hn : InvState ncs) :
    StoreInv (conv_set sender ncs st) := by
  intro s cs hc
  unfold conv_set at hc
  by_cases e : s = sender
  · rw [if_pos e] at hc
    exact (Option.some.inj hc) ▸ hn
  · rw [if_neg e] at hc
    exact h s cs hc

theorem invPreserve_del {sender : String} {st : Conversations}
    (h : StoreInv st) : StoreInv (conv_del sender st) := by
  intro s cs hc
  unfold conv_del at hc
  by_cases e : s = sender
  · rw [if_pos e] at hc
    exact absurd hc (by simp)
  · rw [if_neg e] at hc
    exact h s cs hc

theorem inv_selection (sender title : String) (st : Conversations)
    (h : StoreInv st) :
    StoreInv (handle_event_type_selection sender title st).1 := by
  unfold handle_event_type_selection
  cases e : st sender with
  | none => exact h
  | some state =>
    have hold := h sender state e
    dsimp only
    split
    · rename_i hstep
      apply invPreserve_set h
      refine ⟨Or.inr (Or.inr (Or.inl rfl)), ?_, ?_, ?_⟩
      · intro _
        exact hold.2.1 (by omega)
      · intro _
        simp
      · intro hx
        simp at hx
    · exact h

theorem inv_date_input (sender t : String) (state : ConvState)
    (st : Conversations) (h : StoreInv st) :
    StoreInv (handle_date_input sender t state st).1 := by
  unfold handle_date_input
  split
  · rename_i hv
    apply invPreserve_set h
    refine ⟨Or.inr (Or.inl rfl), ?_, ?_, ?_⟩
    · intro _
      refine ⟨t, rfl, ?_⟩
      intro he
      rw [he] at hv
      exact absurd hv (by decide)
    · intro hx
      simp at hx
    · intro hx
      simp at hx
  · exact h

theorem inv_location_input (sender t : String) (state : ConvState)
    (st : Conversations) (h : StoreInv st) (hstate : InvState state)
    (hstep : state.step = 3) :
    StoreInv (handle_location_input sender t state st).1 := by
  unfold handle_location_input
  apply invPreserve_set h
  refine ⟨Or.inr (Or.inr (Or.inr rfl)), ?_, ?_, ?_⟩
  · intro _
    exact hstate.2.1 (by omega)
  · intro _
    exact hstate.2.2.1 (by omega)
  · intro _
    simp

theorem inv_guests_input (sender t : String) (state : ConvState)
    (st : Conversations) (h : StoreInv st) :
    StoreInv (handle_guests_input sender t state st).1 := by
  unfold handle_guests_input
  split
  · exact invPreserve_del h
  · exact h

theorem inv_text_message (sender t : String) (st : Conversations)
    (h : StoreInv st) : StoreInv (handle_text_message sender t st).1 := by
  unfold handle_text_message
  split
  · unfold cancel_conversation
    dsimp only
    split
    · exact invPreserve_del h
    · exact h
  · cases e : st sender with
    | none => exact h
    | some state =>
      have hstate := h sender state e
      dsimp only
      split
      · exact inv_date_input sender t state st h
      · split
        · exact inv_selection sender t st h
        · split
          · rename_i hs3
            exact inv_location_input sender t state st h hstate hs3
          · split
            · exact inv_guests_input sender t state st h
            · exact h

/-- C5, amended: every operation of the state machine preserves the
invariant that each stored entry has a step among the four wizard steps,
a present and non-empty date once step 1 is passed, and a present event
type and location once their steps are passed (either may be the empty
string, since selection titles and location text are stored verbatim);
completion and cancellation delete the entry. -/
theorem store_invariant_preserved (sender : String) (ev : InEvent)
    (st : Conversations) (h : StoreInv st) :
    StoreInv (processEvent sender ev st).1 := by
  cases ev with
  | text t => exact inv_text_message sender t st h
  | buttonReply id =>
    dsimp only [processEvent]
    split
    · dsimp only [start_conversation]
      apply invPreserve_set h
      refine ⟨Or.inl rfl, ?_, ?_, ?_⟩ <;> intro hx <;> simp at hx
    · exact h
  | listReply id title => exact inv_selection sender title st h

/-- C5, witness: preservation applied to the empty store. -/
theorem store_invariant_preserved_instance :
    StoreInv (processEvent "a" (InEvent.text "ביטול") (fun _ => none)).1 :=
  store_invariant_preserved "a" (InEvent.text "ביטול") (fun _ => none)
    (fun _ _ hc => nomatch hc)

/-! ### C8: the webhook's error handling -/

/-- C8, counterexample: the claim says *every* malformed payload is
acknowledged with the generic success response, but the `except` clause
catches only `KeyError` and `IndexError`; on `{"entry": 5}` the
subscript `data["entry"][0]` raises `TypeError`, which escapes the
endpoint as a non-success response. -/
theorem webhook_type_error_cex :
    (handle_webhook (Json.obj [("entry", Json.num 5)]) (fun _ => none)).1 =
      Resp.serverError PyErr.typeError := by decide

/-- C8, amended: a malformed payload whose extraction fails with a missing
key (`KeyError`) or an out-of-range index (`IndexError`) is ignored
silently — no state change, no outbound send, and the generic success
acknowledgment; every extraction failure leaves the store untouched and
sends nothing; but a payload whose structure mismatches types can raise
an uncaught `TypeError`/`AttributeError`, producing a non-success
response. -/
theorem webhook_error_containment (data : Json) (st : Conversations) :
    (∀ e, webhookBody data st = Except.error e →
      (handle_webhook data st).2 = (st, [])) ∧
    (∀ e, webhookBody data st = Except.error e →
      (e = PyErr.keyError ∨ e = PyErr.indexError) →
      (handle_webhook data st).1 = Resp.ok) ∧
    ((handle_webhook data st).1 = Resp.ok ∨
     (∃ e, (handle_webhook data st).1 = Resp.serverError e ∧
       e ≠ PyErr.keyError ∧ e ≠ PyErr.indexError ∧
       (handle_webhook data st).2 = (st, []))) := by
  refine ⟨?_, ?_, ?_⟩
  · intro e he
    unfold handle_webhook
    rw [he]
    dsimp only
    split <;> rfl
  · intro e he hee
    unfold handle_webhook
    rw [he]
    dsimp only
    rw [if_pos hee]
  · cases hb : webhookBody data st with
    | ok r =>
      left
      unfold handle_webhook
      rw [hb]
    | error e =>
      by_cases hc : e = PyErr.keyError ∨ e = PyErr.indexError
      · left
        unfold handle_webhook
        rw [hb]
        dsimp only
        rw [if_pos hc]
      · right
        refine ⟨e, ?_, fun h => hc (Or.inl h), fun h => hc (Or.inr h), ?_⟩
        · unfold handle_webhook
          rw [hb]
          dsimp only
          rw [if_neg hc]
        · unfold handle_webhook
          rw [hb]
          dsimp only
          rw [if_neg hc]

/-- C8, witness: the containment theorem applied to `null` (whose
extraction raises an uncaught `TypeError`) — the store and sends are
untouched. -/
theorem webhook_error_containment_instance :
    (handle_webhook Json.null (fun _ => none)).2 =
      ((fun _ => none : Conversations), []) :=
  (webhook_error_containment Json.null (fun _ => none)).1
    PyErr.typeError (by rfl)

end GoldaBot
